import Mathlib

/-!
Verification of the portfolio diversification analyzer.

Shallow embedding of the diversification metrics engine, tier classifier,
fallback commentary generator and result assembler found in
`portfolio_analyzer.py`, `portfolio_analyzer_dspy.py` and
`pydantic_diversification_analyst.py`.

Conventions of the embedding:
  - Python floats are modelled as exact rationals (`ℚ`); `x / 0` in `ℚ`
    is `0` where pandas would produce `inf`/`NaN` — no claim below depends
    on the value produced by a zero division, only on whether one happens
    and on whether the call raises.
  - A pandas `DataFrame` holding the parsed statement is modelled as its
    list of `(name, value)` rows plus the two optional columns
    (`weights`, `weights_squared`) that the analyzers may add.  Column
    assignment (`df['w'] = ...`), which mutates the caller's object, is
    modelled by state passing: such a function returns the updated frame
    alongside its result; `DataFrame.assign`, which copies, leaves the
    input component unchanged.
  - None of the embedded functions contains a `raise` and none of the
    pandas operations they perform can throw on any input, so they are
    total Lean functions.
-/

/-- One pandas frame of parsed holdings: the `name`/`value` rows produced by
the extractor, plus the optional `weights` / `weights_squared` columns that
`calculate_hhi_metrics` adds. -/
structure DataFrame where
  rows : List (String × ℚ)
  weights : Option (List ℚ) := none
  weights_squared : Option (List ℚ) := none
deriving DecidableEq

/-- The `value` column (`investments['value']`). -/
def DataFrame.value (df : DataFrame) : List ℚ :=
  df.rows.map (fun r => r.2)

/-- The dict returned by `calculate_hhi_metrics` in `portfolio_analyzer.py`
and `pydantic_diversification_analyst.py`: keys `hhi`, `normalized_hhi`,
`total_value`. -/
structure HHIMetrics where
  hhi : ℚ
  normalized_hhi : ℚ
  total_value : ℚ
deriving DecidableEq

namespace PortfolioAnalyzer

/-- Transcription of `PortfolioAnalyzer.calculate_hhi_metrics`
(`portfolio_analyzer.py`, lines 194-223).  The Python body assigns two new
columns on the caller's frame (`investments['weights'] = ...`), so the
embedding returns the updated frame together with the metrics dict. -/
def calculate_hhi_metrics (investments : DataFrame) : DataFrame × HHIMetrics :=
  let total_value := investments.value.sum
  let weights := investments.value.map (fun v => v / total_value)
  let investments1 := { investments with weights := some weights }
  let weights_squared := weights.map (fun w => w ^ 2)
  let investments2 := { investments1 with weights_squared := some weights_squared }
  let hhi := weights_squared.sum
  let n : ℕ := investments2.rows.length
  let normalized_hhi := if n > 1 then (hhi - 1 / (n : ℚ)) / (1 - 1 / (n : ℚ)) else 1
  (investments2, { hhi := hhi, normalized_hhi := normalized_hhi, total_value := total_value })

/-- Transcription of `PortfolioAnalyzer.get_diversification_level`
(`portfolio_analyzer.py`, lines 264-281). -/
def get_diversification_level (normalized_hhi : ℚ) : String :=
  if normalized_hhi ≥ 0.8 then "Highly Concentrated (Poor Diversification)"
  else if normalized_hhi ≥ 0.5 then "Moderately Concentrated"
  else if normalized_hhi ≥ 0.2 then "Moderately Diversified"
  else "Well Diversified"

end PortfolioAnalyzer

namespace PydanticDiversificationAnalyst

/-- Transcription of the module-level `calculate_hhi_metrics`
(`pydantic_diversification_analyst.py`, lines 96-124); same
column-mutating style as the `portfolio_analyzer.py` variant. -/
def calculate_hhi_metrics (investments : DataFrame) : DataFrame × HHIMetrics :=
  let total_value := investments.value.sum
  let weights := investments.value.map (fun v => v / total_value)
  let investments1 := { investments with weights := some weights }
  let weights_squared := weights.map (fun w => w ^ 2)
  let investments2 := { investments1 with weights_squared := some weights_squared }
  let hhi := weights_squared.sum
  let n : ℕ := investments2.rows.length
  let normalized_hhi := if n > 1 then (hhi - 1 / (n : ℚ)) / (1 - 1 / (n : ℚ)) else 1
  (investments2, { hhi := hhi, normalized_hhi := normalized_hhi, total_value := total_value })

end PydanticDiversificationAnalyst

namespace PortfolioAnalyzerDspy

/-- The dict returned by `calculate_hhi_metrics` in
`portfolio_analyzer_dspy.py`: the three metric keys plus the
`investments_df` frame carrying the added weight columns. -/
structure Metrics where
  hhi : ℚ
  normalized_hhi : ℚ
  total_value : ℚ
  investments_df : DataFrame
deriving DecidableEq

/-- Transcription of `PortfolioAnalyzer.calculate_hhi_metrics`
(`portfolio_analyzer_dspy.py`, lines 150-182).  This variant uses
`DataFrame.assign`, which copies: the caller's frame (first component of
the result) is returned unchanged, and the frame with the added columns
travels inside the metrics dict as `investments_df`. -/
def calculate_hhi_metrics (investments : DataFrame) : DataFrame × Metrics :=
  let total_value := investments.value.sum
  let weights := investments.value.map (fun v => v / total_value)
  let weights_squared := weights.map (fun w => w ^ 2)
  let assigned := { investments with weights := some weights, weights_squared := some weights_squared }
  let hhi := weights_squared.sum
  let n : ℕ := assigned.rows.length
  let normalized_hhi := if n > 1 then (hhi - 1 / (n : ℚ)) / (1 - 1 / (n : ℚ)) else 1
  (investments, { hhi := hhi, normalized_hhi := normalized_hhi, total_value := total_value,
                  investments_df := assigned })

/-- Transcription of `PortfolioAnalyzer.get_diversification_level`
(`portfolio_analyzer_dspy.py`, lines 306-323); textually identical to the
`portfolio_analyzer.py` copy. -/
def get_diversification_level (normalized_hhi : ℚ) : String :=
  if normalized_hhi ≥ 0.8 then "Highly Concentrated (Poor Diversification)"
  else if normalized_hhi ≥ 0.5 then "Moderately Concentrated"
  else if normalized_hhi ≥ 0.2 then "Moderately Diversified"
  else "Well Diversified"

end PortfolioAnalyzerDspy

/-! ### Python number formatting

`f"{x:,.2f}"`, `f"{x:.4f}"`, `f"{x:.1f}"` on our rational model of the
float: fixed-point rendering with round-half-to-even (the rounding Python
uses when formatting) and, for the `,` forms, thousands separators. -/

/-- Round to the nearest integer, ties to even (Python's rounding of
floats at a formatting boundary and in `round`). -/
def roundHalfEven (q : ℚ) : ℤ :=
  let f : ℤ := ⌊q⌋
  let r : ℚ := q - (f : ℚ)
  if r < 1 / 2 then f
  else if 1 / 2 < r then f + 1
  else if f % 2 = 0 then f else f + 1

/-- Left-pad a digit string with zeros to the requested width. -/
def padZeros (s : String) (k : Nat) : String :=
  (List.replicate (k - s.length) '0').asString ++ s

/-- Insert a `,` after every group of three digits, working on the
reversed digit list. -/
def groupDigitsRev : List Char → List Char
  | a :: b :: c :: d :: rest => a :: b :: c :: ',' :: groupDigitsRev (d :: rest)
  | l => l

/-- Thousands separators for a plain digit string. -/
def addThousandsSeparators (s : String) : String :=
  ((groupDigitsRev s.data.reverse).reverse).asString

/-- Python `f"{q:.prec f}"` on the rational model: fixed-point with
`prec` digits after the point. -/
def formatFixed (q : ℚ) (prec : Nat) : String :=
  let scaled := roundHalfEven (q * (10 : ℚ) ^ prec)
  let sign := if scaled < 0 then "-" else ""
  let a := scaled.natAbs
  if prec = 0 then sign ++ toString (a / 10 ^ prec)
  else sign ++ toString (a / 10 ^ prec) ++ "." ++ padZeros (toString (a % 10 ^ prec)) prec

/-- Python `f"{q:,.prec f}"`: as `formatFixed` but with thousands
separators in the integer part. -/
def formatCommaFixed (q : ℚ) (prec : Nat) : String :=
  let scaled := roundHalfEven (q * (10 : ℚ) ^ prec)
  let sign := if scaled < 0 then "-" else ""
  let a := scaled.natAbs
  if prec = 0 then sign ++ addThousandsSeparators (toString (a / 10 ^ prec))
  else sign ++ addThousandsSeparators (toString (a / 10 ^ prec)) ++ "." ++
    padZeros (toString (a % 10 ^ prec)) prec

/-- Python `round(q, 4)` on the rational model (ties to even). -/
def roundTo4 (q : ℚ) : ℚ :=
  (roundHalfEven (q * 10 ^ 4) : ℚ) / 10 ^ 4

namespace PortfolioAnalyzerDspy

/-- The `PortfolioAnalysis` pydantic model (`portfolio_analyzer_dspy.py`,
lines 29-36). -/
structure PortfolioAnalysis where
  total_value : ℚ
  num_holdings : Nat
  hhi : ℚ
  normalized_hhi : ℚ
  diversification_level : String
  commentary : String
deriving DecidableEq

/-- Guidance block appended when `normalized_hhi < 0.2`
(`portfolio_analyzer_dspy.py`, lines 292-294). -/
def wellDiversifiedBlock : String :=
  "1. **Maintain Your Diversification Strategy:** Your portfolio shows excellent diversification. Continue your current approach.\n2. **Regular Monitoring:** Periodically review your portfolio to ensure it remains aligned with your goals.\n3. **Consider Sectoral Diversification:** Ensure your investments span different sectors and asset classes."

/-- Guidance block appended when `0.2 <= normalized_hhi < 0.5`
(`portfolio_analyzer_dspy.py`, lines 296-298). -/
def moderateConcentrationBlock : String :=
  "1. **Consider Rebalancing:** Your portfolio shows moderate concentration. Consider redistributing from larger holdings to smaller positions.\n2. **Add New Positions:** Consider adding new, uncorrelated investments to improve diversification.\n3. **Monitor Large Holdings:** Keep an eye on your largest positions to prevent excessive concentration."

/-- Guidance block appended when `normalized_hhi >= 0.5`
(`portfolio_analyzer_dspy.py`, lines 300-302). -/
def highConcentrationBlock : String :=
  "1. **Urgent Rebalancing Needed:** Your portfolio is highly concentrated. Consider significantly reducing your largest positions.\n2. **Diversify Immediately:** Add multiple new investments across different sectors and asset classes.\n3. **Risk Management:** High concentration increases risk. Prioritize diversification to protect your portfolio."

/-- One line of the top-holdings list:
`f"- {row['name']}: ${row['value']:,.2f} ({row['weights']*100:.1f}%)\n"`.
A row is a `(name, value)` pair zipped with its `weights` entry. -/
def holdingLine (row : (String × ℚ) × ℚ) : String :=
  "- " ++ row.1.1 ++ ": $" ++ formatCommaFixed row.1.2 2 ++ " (" ++
    formatFixed (row.2 * 100) 1 ++ "%)\n"

/-- `investments.nlargest(3, 'value')` on rows zipped with their weights:
descending stable sort by the `value` column, first three rows
(pandas `keep='first'`). -/
def nlargest3ByValue (rowsW : List ((String × ℚ) × ℚ)) : List ((String × ℚ) × ℚ) :=
  (rowsW.insertionSort (fun a b => b.1.2 ≤ a.1.2)).take 3

/-- Transcription of `PortfolioAnalyzer._generate_fallback_commentary`
(`portfolio_analyzer_dspy.py`, lines 264-304).  Reading `row['weights']`
requires the `weights` column: absent or misaligned weights would be a
Python `KeyError`, modelled by `none`. -/
def _generate_fallback_commentary (investments : DataFrame) (metrics : Metrics)
    (diversification_level : String) : Option String :=
  match investments.weights with
  | none => none
  | some ws =>
    if ws.length = investments.rows.length then
      let total_value := metrics.total_value
      let num_holdings := investments.rows.length
      let hhi := metrics.hhi
      let normalized_hhi := metrics.normalized_hhi
      let top_holdings := nlargest3ByValue (investments.rows.zip ws)
      let commentary := "Your portfolio, comprising " ++ toString num_holdings ++
        " investments with a total value of $" ++ formatCommaFixed total_value 2 ++
        ", has been analyzed for diversification.\n\nBased on the HHI of " ++
        formatFixed hhi 4 ++ ", your portfolio is classified as **" ++
        diversification_level ++ "**. The Normalized HHI of " ++
        formatFixed normalized_hhi 4 ++
        " provides additional context about your diversification relative to the number of holdings.\n\n**Top Holdings:**\n"
      let commentary := top_holdings.foldl (fun acc row => acc ++ holdingLine row) commentary
      let commentary := commentary ++ "\n**Recommendations:**\n"
      let commentary := commentary ++
        (if normalized_hhi < 0.2 then wellDiversifiedBlock
         else if normalized_hhi < 0.5 then moderateConcentrationBlock
         else highConcentrationBlock)
      some commentary
    else none

/-- The success path of `PortfolioAnalyzer.analyze_portfolio`
(`portfolio_analyzer_dspy.py`, lines 227-243): the DSPy predictor returned
`external` and the code overrides every metric field with the locally
computed values before returning it. -/
def analyze_portfolio_success (investments : DataFrame)
    (external : PortfolioAnalysis) : PortfolioAnalysis :=
  let metrics := (calculate_hhi_metrics investments).2
  let diversification_level := get_diversification_level metrics.normalized_hhi
  { external with
    total_value := metrics.total_value
    num_holdings := investments.rows.length
    hhi := roundTo4 metrics.hhi
    normalized_hhi := roundTo4 metrics.normalized_hhi
    diversification_level := diversification_level }

end PortfolioAnalyzerDspy

/-- `sub` occurs as a contiguous substring of `s`. -/
def occursIn (sub s : String) : Prop :=
  ∃ a b, s = a ++ sub ++ b

/-- The spec's running scenario: holdings A/B/C worth 6000/3000/1000. -/
def scenarioDF : DataFrame :=
  { rows := [("A", 6000), ("B", 3000), ("C", 1000)] }

/-- `scenarioDF` with its rows listed in the opposite order. -/
def scenarioRevDF : DataFrame :=
  { rows := [("C", 1000), ("B", 3000), ("A", 6000)] }

/-- A degenerate portfolio: one holding of value zero, so the total value
is zero. -/
def zeroDF : DataFrame :=
  { rows := [("A", 0)] }

/-- The scenario frame after the metrics engine added its weights column,
as handed to the fallback commentary generator. -/
def fallbackDF : DataFrame :=
  { rows := [("A", 6000), ("B", 3000), ("C", 1000)],
    weights := some [6/10, 3/10, 1/10] }

/-- The scenario metrics dict handed to the fallback commentary
generator. -/
def fallbackMetrics : PortfolioAnalyzerDspy.Metrics :=
  { hhi := 46/100, normalized_hhi := 19/100, total_value := 10000,
    investments_df := fallbackDF }

/-- C1: on a non-empty holdings list with positive total,
`calculate_hhi_metrics` returns `total_value` = the sum of the values,
`hhi` = the sum of the squared weights `value / total`, and
`normalized_hhi` = `(hhi - 1/n)/(1 - 1/n)` for `n > 1` and `1.0` for
`n = 1`; on the scenario holdings A/B/C = 6000/3000/1000 it returns
`total_value = 10000` and `hhi = 0.46`. -/
theorem hhi_metrics_formula_and_scenario :
    (∀ df : DataFrame, df.rows ≠ [] → 0 < df.value.sum →
      (PortfolioAnalyzer.calculate_hhi_metrics df).2.total_value = df.value.sum ∧
      (PortfolioAnalyzer.calculate_hhi_metrics df).2.hhi =
        (df.value.map (fun v => (v / df.value.sum) ^ 2)).sum ∧
      (1 < df.rows.length →
        (PortfolioAnalyzer.calculate_hhi_metrics df).2.normalized_hhi =
          ((PortfolioAnalyzer.calculate_hhi_metrics df).2.hhi - 1 / (df.rows.length : ℚ)) /
            (1 - 1 / (df.rows.length : ℚ))) ∧
      (df.rows.length = 1 →
        (PortfolioAnalyzer.calculate_hhi_metrics df).2.normalized_hhi = 1)) ∧
    (PortfolioAnalyzer.calculate_hhi_metrics scenarioDF).2.total_value = 10000 ∧
    (PortfolioAnalyzer.calculate_hhi_metrics scenarioDF).2.hhi = 46/100 ∧
    (PortfolioAnalyzer.calculate_hhi_metrics scenarioDF).2.normalized_hhi = 19/100 := by
  refine ⟨fun df hne hpos => ⟨rfl, ?_, ?_, ?_⟩, ?_, ?_, ?_⟩
  · simp [PortfolioAnalyzer.calculate_hhi_metrics, List.map_map, Function.comp_def]
  · intro hlen
    simp only [PortfolioAnalyzer.calculate_hhi_metrics]
    split
    · rfl
    · next hcond => exact absurd hlen hcond
  · intro hlen
    simp only [PortfolioAnalyzer.calculate_hhi_metrics]
    split
    · next hcond => exact absurd hcond (by omega)
    · rfl
  · norm_num [PortfolioAnalyzer.calculate_hhi_metrics, DataFrame.value, scenarioDF]
  · norm_num [PortfolioAnalyzer.calculate_hhi_metrics, DataFrame.value, scenarioDF]
  · norm_num [PortfolioAnalyzer.calculate_hhi_metrics, DataFrame.value, scenarioDF]

/-- C1 witness: the general part of `hhi_metrics_formula_and_scenario`
instantiated at the scenario holdings. -/
theorem hhi_metrics_formula_and_scenario_witness :
    scenarioDF.rows ≠ [] ∧ 0 < scenarioDF.value.sum ∧
    ((PortfolioAnalyzer.calculate_hhi_metrics scenarioDF).2.total_value =
        scenarioDF.value.sum ∧
      (PortfolioAnalyzer.calculate_hhi_metrics scenarioDF).2.hhi =
        (scenarioDF.value.map (fun v => (v / scenarioDF.value.sum) ^ 2)).sum ∧
      (1 < scenarioDF.rows.length →
        (PortfolioAnalyzer.calculate_hhi_metrics scenarioDF).2.normalized_hhi =
          ((PortfolioAnalyzer.calculate_hhi_metrics scenarioDF).2.hhi -
              1 / (scenarioDF.rows.length : ℚ)) /
            (1 - 1 / (scenarioDF.rows.length : ℚ))) ∧
      (scenarioDF.rows.length = 1 →
        (PortfolioAnalyzer.calculate_hhi_metrics scenarioDF).2.normalized_hhi = 1)) :=
  ⟨by simp [scenarioDF], by norm_num [scenarioDF, DataFrame.value],
    hhi_metrics_formula_and_scenario.1 scenarioDF (by simp [scenarioDF])
      (by norm_num [scenarioDF, DataFrame.value])⟩

/-- C2 counterexample: `calculate_hhi_metrics` performs no input
validation.  On the empty holdings list it returns a metrics dict
(`hhi = 0`, `normalized_hhi = 1`, `total_value = 0`) instead of failing
with `EmptyPortfolioError`, and on a portfolio whose total value is zero
it likewise returns a dict instead of failing with
`InvalidPortfolioValueError` — no such exception (nor any other) is
raised anywhere in its body. -/
theorem hhi_metrics_no_validation_counterexample :
    (PortfolioAnalyzer.calculate_hhi_metrics { rows := [] }).2 =
      { hhi := 0, normalized_hhi := 1, total_value := 0 } ∧
    (PortfolioAnalyzer.calculate_hhi_metrics { rows := [("A", 0)] }).2 =
      { hhi := 0, normalized_hhi := 1, total_value := 0 } := by
  constructor <;> simp [PortfolioAnalyzer.calculate_hhi_metrics, DataFrame.value]

/-- C2 amended: `calculate_hhi_metrics` validates nothing and never
raises.  For every input — empty or not, zero total or not — it returns a
metrics dict with `total_value` the plain sum and `hhi` the sum of the
squared ratios; on the empty list the result is
`{hhi := 0, normalized_hhi := 1, total_value := 0}`, and when the total
is zero the weights column is still assigned by dividing each value by
the zero total (NaN/inf in floating point) rather than an error being
raised. -/
theorem hhi_metrics_no_validation :
    ∀ df : DataFrame,
      (PortfolioAnalyzer.calculate_hhi_metrics df).2.total_value = df.value.sum ∧
      (PortfolioAnalyzer.calculate_hhi_metrics df).2.hhi =
        (df.value.map (fun v => (v / df.value.sum) ^ 2)).sum ∧
      (df.rows = [] →
        (PortfolioAnalyzer.calculate_hhi_metrics df).2 =
          { hhi := 0, normalized_hhi := 1, total_value := 0 }) ∧
      (df.value.sum = 0 →
        (PortfolioAnalyzer.calculate_hhi_metrics df).1.weights =
          some (df.value.map (fun v => v / 0))) := by
  intro df
  refine ⟨rfl, ?_, ?_, ?_⟩
  · simp [PortfolioAnalyzer.calculate_hhi_metrics, List.map_map, Function.comp_def]
  · intro h
    simp [PortfolioAnalyzer.calculate_hhi_metrics, DataFrame.value, h]
  · intro h
    simp [PortfolioAnalyzer.calculate_hhi_metrics, h]

/-- C2 witness: `hhi_metrics_no_validation` instantiated at the
single-row zero-value portfolio. -/
theorem hhi_metrics_no_validation_witness :
    (PortfolioAnalyzer.calculate_hhi_metrics zeroDF).2.total_value = zeroDF.value.sum ∧
      (PortfolioAnalyzer.calculate_hhi_metrics zeroDF).2.hhi =
        (zeroDF.value.map (fun v => (v / zeroDF.value.sum) ^ 2)).sum ∧
      (zeroDF.rows = [] →
        (PortfolioAnalyzer.calculate_hhi_metrics zeroDF).2 =
          { hhi := 0, normalized_hhi := 1, total_value := 0 }) ∧
      (zeroDF.value.sum = 0 →
        (PortfolioAnalyzer.calculate_hhi_metrics zeroDF).1.weights =
          some (zeroDF.value.map (fun v => v / 0))) :=
  hhi_metrics_no_validation zeroDF

/-- C3: on the valid domain `[0, 1]` the tier classifier implements the
four closed-open bands with inclusive boundaries going to the
higher-concentration tier, and the dspy copy agrees with it. -/
theorem diversification_level_tier_iff :
    ∀ x : ℚ, 0 ≤ x → x ≤ 1 →
      ((PortfolioAnalyzer.get_diversification_level x =
          "Highly Concentrated (Poor Diversification)" ↔ 0.8 ≤ x) ∧
       (PortfolioAnalyzer.get_diversification_level x = "Moderately Concentrated" ↔
          0.5 ≤ x ∧ x < 0.8) ∧
       (PortfolioAnalyzer.get_diversification_level x = "Moderately Diversified" ↔
          0.2 ≤ x ∧ x < 0.5) ∧
       (PortfolioAnalyzer.get_diversification_level x = "Well Diversified" ↔ x < 0.2) ∧
       PortfolioAnalyzerDspy.get_diversification_level x =
         PortfolioAnalyzer.get_diversification_level x) := by
  intro x h0 h1
  have hmain :
      (PortfolioAnalyzer.get_diversification_level x =
          "Highly Concentrated (Poor Diversification)" ↔ 0.8 ≤ x) ∧
      (PortfolioAnalyzer.get_diversification_level x = "Moderately Concentrated" ↔
          0.5 ≤ x ∧ x < 0.8) ∧
      (PortfolioAnalyzer.get_diversification_level x = "Moderately Diversified" ↔
          0.2 ≤ x ∧ x < 0.5) ∧
      (PortfolioAnalyzer.get_diversification_level x = "Well Diversified" ↔ x < 0.2) := by
    unfold PortfolioAnalyzer.get_diversification_level
    split_ifs with ha hb hc <;>
      refine ⟨⟨fun hq => ?_, fun hq => ?_⟩, ⟨fun hq => ?_, fun hq => ?_⟩,
        ⟨fun hq => ?_, fun hq => ?_⟩, ⟨fun hq => ?_, fun hq => ?_⟩⟩ <;>
      first
        | rfl
        | exact absurd hq (by decide)
        | linarith
        | exact ⟨by linarith, by linarith⟩
        | (exfalso; rcases hq with ⟨hq1, hq2⟩; linarith)
        | (exfalso; linarith)
  exact ⟨hmain.1, hmain.2.1, hmain.2.2.1, hmain.2.2.2, rfl⟩

/-- C3 witness: the tier bands at `x = 0.8`. -/
theorem diversification_level_tier_iff_witness :
    (0 : ℚ) ≤ 0.8 ∧ (0.8 : ℚ) ≤ 1 ∧
    ((PortfolioAnalyzer.get_diversification_level 0.8 =
        "Highly Concentrated (Poor Diversification)" ↔ (0.8 : ℚ) ≤ 0.8) ∧
     (PortfolioAnalyzer.get_diversification_level 0.8 = "Moderately Concentrated" ↔
        (0.5 : ℚ) ≤ 0.8 ∧ (0.8 : ℚ) < 0.8) ∧
     (PortfolioAnalyzer.get_diversification_level 0.8 = "Moderately Diversified" ↔
        (0.2 : ℚ) ≤ 0.8 ∧ (0.8 : ℚ) < 0.5) ∧
     (PortfolioAnalyzer.get_diversification_level 0.8 = "Well Diversified" ↔
        (0.8 : ℚ) < 0.2) ∧
     PortfolioAnalyzerDspy.get_diversification_level 0.8 =
       PortfolioAnalyzer.get_diversification_level 0.8) :=
  ⟨by norm_num, by norm_num,
    diversification_level_tier_iff 0.8 (by norm_num) (by norm_num)⟩

/-- C4 counterexample: the classifier has no domain check.  At
`normalized_hhi = -1` it returns the tier label "Well Diversified" and at
`normalized_hhi = 2` it returns "Highly Concentrated (Poor
Diversification)" — no `InvalidMetricError` (nor any exception) occurs in
its body. -/
theorem diversification_level_no_range_check_counterexample :
    PortfolioAnalyzer.get_diversification_level (-1) = "Well Diversified" ∧
    PortfolioAnalyzer.get_diversification_level 2 =
      "Highly Concentrated (Poor Diversification)" ∧
    PortfolioAnalyzerDspy.get_diversification_level (-1) = "Well Diversified" := by
  refine ⟨?_, ?_, ?_⟩ <;>
    · simp only [PortfolioAnalyzer.get_diversification_level,
        PortfolioAnalyzerDspy.get_diversification_level]
      norm_num

/-- C4 amended: the classifier accepts every rational input and
classifies it with the same `>=` ladder: anything below 0 (hence below
0.2) yields "Well Diversified" and anything above 1 (hence at least 0.8)
yields "Highly Concentrated (Poor Diversification)", in both copies. -/
theorem diversification_level_no_range_check :
    ∀ x : ℚ,
      (x < 0 →
        PortfolioAnalyzer.get_diversification_level x = "Well Diversified" ∧
        PortfolioAnalyzerDspy.get_diversification_level x = "Well Diversified") ∧
      (1 < x →
        PortfolioAnalyzer.get_diversification_level x =
          "Highly Concentrated (Poor Diversification)" ∧
        PortfolioAnalyzerDspy.get_diversification_level x =
          "Highly Concentrated (Poor Diversification)") := by
  intro x
  constructor <;> intro h <;>
    · constructor <;>
        · simp only [PortfolioAnalyzer.get_diversification_level,
            PortfolioAnalyzerDspy.get_diversification_level]
          split_ifs <;> first | rfl | (exfalso; linarith)

/-- C4 witness: `diversification_level_no_range_check` at `x = -1`. -/
theorem diversification_level_no_range_check_witness :
    ((-1 : ℚ) < 0 →
        PortfolioAnalyzer.get_diversification_level (-1) = "Well Diversified" ∧
        PortfolioAnalyzerDspy.get_diversification_level (-1) = "Well Diversified") ∧
      (1 < (-1 : ℚ) →
        PortfolioAnalyzer.get_diversification_level (-1) =
          "Highly Concentrated (Poor Diversification)" ∧
        PortfolioAnalyzerDspy.get_diversification_level (-1) =
          "Highly Concentrated (Poor Diversification)") :=
  diversification_level_no_range_check (-1)

/-- C6: the metrics dict returned by `calculate_hhi_metrics` is invariant
under permutation of the holdings rows: total value, HHI and normalized
HHI are all computed from sums and the length, none of which depend on
the order. -/
theorem hhi_metrics_perm_invariant :
    ∀ df1 df2 : DataFrame, df1.rows.Perm df2.rows →
      (PortfolioAnalyzer.calculate_hhi_metrics df1).2 =
        (PortfolioAnalyzer.calculate_hhi_metrics df2).2 := by
  intro df1 df2 h
  have hv : df1.value.Perm df2.value := h.map _
  have hT : df1.value.sum = df2.value.sum := hv.sum_eq
  have hsq : ((df1.value.map (fun v => v / df1.value.sum)).map (fun w => w ^ 2)).sum =
      ((df2.value.map (fun v => v / df2.value.sum)).map (fun w => w ^ 2)).sum := by
    refine List.Perm.sum_eq ?_
    refine List.Perm.map _ ?_
    rw [hT]
    exact hv.map _
  have hn : df1.rows.length = df2.rows.length := h.length_eq
  simp only [PortfolioAnalyzer.calculate_hhi_metrics]
  rw [hsq, hT, hn]

/-- C6 witness: `hhi_metrics_perm_invariant` on the scenario holdings and
their reversal. -/
theorem hhi_metrics_perm_invariant_witness :
    scenarioDF.rows.Perm scenarioRevDF.rows ∧
    (PortfolioAnalyzer.calculate_hhi_metrics scenarioDF).2 =
      (PortfolioAnalyzer.calculate_hhi_metrics scenarioRevDF).2 :=
  ⟨by decide, hhi_metrics_perm_invariant scenarioDF scenarioRevDF (by decide)⟩

/-- C7 counterexample: `calculate_hhi_metrics` in `portfolio_analyzer.py`
is not free of side effects on the caller's data: called on the scenario
frame (which has no `weights` column), it hands back the frame with new
`weights` and `weights_squared` columns added — `investments['weights'] =
...` mutates the caller's DataFrame in place. -/
theorem hhi_metrics_mutates_counterexample :
    (PortfolioAnalyzer.calculate_hhi_metrics scenarioDF).1 ≠ scenarioDF ∧
    (PortfolioAnalyzer.calculate_hhi_metrics scenarioDF).1.weights =
      some [6/10, 3/10, 1/10] ∧
    scenarioDF.weights = none := by
  refine ⟨?_, ?_, rfl⟩
  · intro h
    have h2 := congrArg DataFrame.weights h
    simp [PortfolioAnalyzer.calculate_hhi_metrics, scenarioDF] at h2
  · norm_num [PortfolioAnalyzer.calculate_hhi_metrics, scenarioDF, DataFrame.value]

/-- C7 amended: the dspy variant (which uses `DataFrame.assign`) really is
pure — the caller's frame comes back unchanged; the `portfolio_analyzer.py`
variant leaves the `name`/`value` data intact but adds/overwrites the
`weights` and `weights_squared` columns on the caller's frame; and the
computation is repeatable — running it again on the mutated frame yields
the same metrics dict. -/
theorem hhi_metrics_mutation_and_determinism :
    ∀ df : DataFrame,
      (PortfolioAnalyzerDspy.calculate_hhi_metrics df).1 = df ∧
      (PortfolioAnalyzer.calculate_hhi_metrics df).1.rows = df.rows ∧
      (PortfolioAnalyzer.calculate_hhi_metrics df).1.weights =
        some (df.value.map (fun v => v / df.value.sum)) ∧
      (PortfolioAnalyzer.calculate_hhi_metrics df).1.weights_squared =
        some ((df.value.map (fun v => v / df.value.sum)).map (fun w => w ^ 2)) ∧
      (PortfolioAnalyzer.calculate_hhi_metrics
          (PortfolioAnalyzer.calculate_hhi_metrics df).1).2 =
        (PortfolioAnalyzer.calculate_hhi_metrics df).2 :=
  fun _ => ⟨rfl, rfl, rfl, rfl, rfl⟩

/-- C9: the three `calculate_hhi_metrics` implementations agree on every
input: the `pydantic_diversification_analyst.py` copy returns the very
same metrics dict as the `portfolio_analyzer.py` one, and the dspy variant
returns the same `hhi`, `normalized_hhi` and `total_value` (it only adds
the `investments_df` key); in particular the `n == 1` / `n > 1`
normalized-HHI branching is identical. -/
theorem hhi_metrics_variants_agree :
    ∀ df : DataFrame,
      (PydanticDiversificationAnalyst.calculate_hhi_metrics df).2 =
        (PortfolioAnalyzer.calculate_hhi_metrics df).2 ∧
      (PortfolioAnalyzerDspy.calculate_hhi_metrics df).2.hhi =
        (PortfolioAnalyzer.calculate_hhi_metrics df).2.hhi ∧
      (PortfolioAnalyzerDspy.calculate_hhi_metrics df).2.normalized_hhi =
        (PortfolioAnalyzer.calculate_hhi_metrics df).2.normalized_hhi ∧
      (PortfolioAnalyzerDspy.calculate_hhi_metrics df).2.total_value =
        (PortfolioAnalyzer.calculate_hhi_metrics df).2.total_value :=
  fun _ => ⟨rfl, rfl, rfl, rfl⟩

/-- C10: on the success path of the dspy `analyze_portfolio`, every metric
field of the returned `PortfolioAnalysis` is the locally computed value —
`total_value` and `num_holdings` exact, `hhi` and `normalized_hhi` rounded
to 4 decimal places, `diversification_level` from the local classifier —
regardless of the externally produced analysis, and two runs whose
external analyses both parsed differ at most in `commentary`, which is
taken verbatim from the external analysis. -/
theorem analyze_portfolio_override_noninterference :
    ∀ (investments : DataFrame) (ext1 ext2 : PortfolioAnalyzerDspy.PortfolioAnalysis),
      (PortfolioAnalyzerDspy.analyze_portfolio_success investments ext1).total_value =
        (PortfolioAnalyzerDspy.calculate_hhi_metrics investments).2.total_value ∧
      (PortfolioAnalyzerDspy.analyze_portfolio_success investments ext1).num_holdings =
        investments.rows.length ∧
      (PortfolioAnalyzerDspy.analyze_portfolio_success investments ext1).hhi =
        roundTo4 (PortfolioAnalyzerDspy.calculate_hhi_metrics investments).2.hhi ∧
      (PortfolioAnalyzerDspy.analyze_portfolio_success investments ext1).normalized_hhi =
        roundTo4 (PortfolioAnalyzerDspy.calculate_hhi_metrics investments).2.normalized_hhi ∧
      (PortfolioAnalyzerDspy.analyze_portfolio_success investments ext1).diversification_level =
        PortfolioAnalyzerDspy.get_diversification_level
          (PortfolioAnalyzerDspy.calculate_hhi_metrics investments).2.normalized_hhi ∧
      (PortfolioAnalyzerDspy.analyze_portfolio_success investments ext1).commentary =
        ext1.commentary ∧
      PortfolioAnalyzerDspy.analyze_portfolio_success investments ext1 =
        { PortfolioAnalyzerDspy.analyze_portfolio_success investments ext2 with
          commentary := ext1.commentary } :=
  fun _ _ _ => ⟨rfl, rfl, rfl, rfl, rfl, rfl, rfl⟩

/-- Sum of a list divided elementwise equals the divided sum. -/
theorem sum_map_div (l : List ℚ) (c : ℚ) :
    (l.map (fun x => x / c)).sum = l.sum / c := by
  induction l with
  | nil => simp
  | cons a tl ih => simp [ih, add_div]

/-- Sums split across an elementwise difference. -/
theorem sum_map_sub (l : List ℚ) (f g : ℚ → ℚ) :
    (l.map (fun x => f x - g x)).sum = (l.map f).sum - (l.map g).sum := by
  induction l with
  | nil => simp
  | cons a tl ih => simp [ih]; ring

/-- Expansion of a sum of squared deviations from a constant. -/
theorem sum_sq_sub_const (l : List ℚ) (c : ℚ) :
    (l.map (fun w => (w - c) ^ 2)).sum =
      (l.map (fun w => w ^ 2)).sum - 2 * c * l.sum + (l.length : ℚ) * c ^ 2 := by
  induction l with
  | nil => simp
  | cons a tl ih =>
    simp only [List.map_cons, List.sum_cons, ih, List.length_cons]
    push_cast
    ring

/-- A sum of nonnegative rationals vanishes exactly when every term does. -/
theorem sum_eq_zero_iff_of_nonneg (l : List ℚ) (h : ∀ x ∈ l, 0 ≤ x) :
    l.sum = 0 ↔ ∀ x ∈ l, x = 0 := by
  induction l with
  | nil => simp
  | cons a tl ih =>
    have ha : 0 ≤ a := h a (by simp)
    have htl : ∀ x ∈ tl, 0 ≤ x := fun x hx => h x (by simp [hx])
    have hts : 0 ≤ tl.sum := List.sum_nonneg htl
    simp only [List.sum_cons, List.mem_cons]
    constructor
    · intro hs
      have ha0 : a = 0 := by linarith
      have hts0 : tl.sum = 0 := by linarith
      intro x hx
      rcases hx with hx | hx
      · exact hx ▸ ha0
      · exact (ih htl).mp hts0 x hx
    · intro hall
      have ha0 : a = 0 := hall a (Or.inl rfl)
      have hts0 : tl.sum = 0 := (ih htl).mpr fun x hx => hall x (Or.inr hx)
      rw [ha0, hts0]
      ring

/-- For a list of weights summing to one, the sum of squares is at least
`1/n`, with equality exactly when all weights equal `1/n`. -/
theorem sum_sq_ge_inv_length (l : List ℚ) (hne : l ≠ []) (hsum : l.sum = 1) :
    1 / (l.length : ℚ) ≤ (l.map (fun w => w ^ 2)).sum ∧
    ((l.map (fun w => w ^ 2)).sum = 1 / (l.length : ℚ) ↔
      ∀ w ∈ l, w = 1 / (l.length : ℚ)) := by
  have hlen : l.length ≠ 0 := by simpa [List.length_eq_zero] using hne
  have hn : (l.length : ℚ) ≠ 0 := by exact_mod_cast hlen
  have hident : (l.map (fun w => (w - 1 / (l.length : ℚ)) ^ 2)).sum =
      (l.map (fun w => w ^ 2)).sum - 1 / (l.length : ℚ) := by
    rw [sum_sq_sub_const, hsum]
    field_simp
    ring
  have hterms : ∀ x ∈ l.map (fun w => (w - 1 / (l.length : ℚ)) ^ 2), 0 ≤ x := by
    intro x hx
    rcases List.mem_map.mp hx with ⟨w, hw, rfl⟩
    positivity
  have h0 : 0 ≤ (l.map (fun w => (w - 1 / (l.length : ℚ)) ^ 2)).sum :=
    List.sum_nonneg hterms
  refine ⟨by rw [hident] at h0; linarith, ?_, ?_⟩
  · intro hH w hw
    have hz : (l.map (fun w => (w - 1 / (l.length : ℚ)) ^ 2)).sum = 0 := by
      rw [hident, hH]
      ring
    have hall := (sum_eq_zero_iff_of_nonneg _ hterms).mp hz
    have hsq : (w - 1 / (l.length : ℚ)) ^ 2 = 0 :=
      hall _ (List.mem_map_of_mem _ hw)
    have := (pow_eq_zero_iff (by norm_num : (2 : ℕ) ≠ 0)).mp hsq
    linarith [this]
  · intro hall
    have hz : (l.map (fun w => (w - 1 / (l.length : ℚ)) ^ 2)).sum = 0 :=
      List.sum_eq_zero (by
        intro x hx
        rcases List.mem_map.mp hx with ⟨u, hu, rfl⟩
        rw [hall u hu]
        ring)
    rw [hident] at hz
    linarith

/-- For weights in `[0, 1]` summing to one, the sum of squares is at most
one, with equality exactly when one of the weights is `1`. -/
theorem sum_sq_le_one (l : List ℚ) (hnn : ∀ w ∈ l, 0 ≤ w) (hle : ∀ w ∈ l, w ≤ 1)
    (hsum : l.sum = 1) :
    (l.map (fun w => w ^ 2)).sum ≤ 1 ∧
    ((l.map (fun w => w ^ 2)).sum = 1 ↔ ∃ w ∈ l, w = 1) := by
  have hid : (l.map (fun w => w)).sum = l.sum := by simp
  have hmono : (l.map (fun w => w ^ 2)).sum ≤ (l.map (fun w => w)).sum :=
    List.sum_le_sum fun w hw => by nlinarith [hnn w hw, hle w hw]
  refine ⟨by rw [hid, hsum] at hmono; exact hmono, ?_, ?_⟩
  · intro hH
    by_contra hno
    push_neg at hno
    have hterms : ∀ x ∈ l.map (fun w => w - w ^ 2), 0 ≤ x := by
      intro x hx
      rcases List.mem_map.mp hx with ⟨w, hw, rfl⟩
      nlinarith [hnn w hw, hle w hw]
    have hz : (l.map (fun w => w - w ^ 2)).sum = 0 := by
      rw [sum_map_sub l (fun w => w) (fun w => w ^ 2), hid, hsum, hH]
      ring
    have hall := (sum_eq_zero_iff_of_nonneg _ hterms).mp hz
    have hzero : ∀ w ∈ l, w = 0 := by
      intro w hw
      have h3 : w - w ^ 2 = 0 := hall _ (List.mem_map_of_mem _ hw)
      have h4 : w * (1 - w) = 0 := by nlinarith [h3]
      rcases mul_eq_zero.mp h4 with h5 | h5
      · exact h5
      · exact absurd (by linarith : w = 1) (hno w hw)
    have := List.sum_eq_zero hzero
    rw [hsum] at this
    norm_num at this
  · rintro ⟨w, hw, hw1⟩
    subst hw1
    rcases List.append_of_mem hw with ⟨s, t, hlst⟩
    subst hlst
    have hs : ∀ x ∈ s, 0 ≤ x := fun x hx => hnn x (by simp [hx])
    have ht : ∀ x ∈ t, 0 ≤ x := fun x hx => hnn x (by simp [hx])
    have hsum2 : s.sum + t.sum = 0 := by
      simp only [List.sum_append, List.sum_cons] at hsum
      linarith
    have hszero : ∀ x ∈ s, x = 0 :=
      (sum_eq_zero_iff_of_nonneg s hs).mp
        (by linarith [List.sum_nonneg hs, List.sum_nonneg ht])
    have htzero : ∀ x ∈ t, x = 0 :=
      (sum_eq_zero_iff_of_nonneg t ht).mp
        (by linarith [List.sum_nonneg hs, List.sum_nonneg ht])
    rw [List.map_append, List.map_cons, List.sum_append, List.sum_cons]
    have h1 : (s.map (fun w => w ^ 2)).sum = 0 :=
      List.sum_eq_zero (by
        intro x hx
        rcases List.mem_map.mp hx with ⟨u, hu, rfl⟩
        rw [hszero u hu]
        ring)
    have h2 : (t.map (fun w => w ^ 2)).sum = 0 :=
      List.sum_eq_zero (by
        intro x hx
        rcases List.mem_map.mp hx with ⟨u, hu, rfl⟩
        rw [htzero u hu]
        ring)
    rw [h1, h2]
    norm_num

/-- C5: for a non-empty holdings list with non-negative values and
positive total, the metrics stay in their mathematically valid ranges:
the computed weights column sums to 1, `1/n <= hhi <= 1` with `hhi = 1/n`
exactly when all weights are equal and `hhi = 1` exactly when one holding
carries the whole total, and `0 <= normalized_hhi <= 1`. -/
theorem hhi_metrics_invariants :
    ∀ df : DataFrame, df.rows ≠ [] → (∀ r ∈ df.rows, 0 ≤ r.2) → 0 < df.value.sum →
      (∃ ws, (PortfolioAnalyzer.calculate_hhi_metrics df).1.weights = some ws ∧
        ws.sum = 1) ∧
      1 / (df.rows.length : ℚ) ≤ (PortfolioAnalyzer.calculate_hhi_metrics df).2.hhi ∧
      (PortfolioAnalyzer.calculate_hhi_metrics df).2.hhi ≤ 1 ∧
      ((PortfolioAnalyzer.calculate_hhi_metrics df).2.hhi = 1 / (df.rows.length : ℚ) ↔
        ∀ x ∈ df.value, x / df.value.sum = 1 / (df.rows.length : ℚ)) ∧
      ((PortfolioAnalyzer.calculate_hhi_metrics df).2.hhi = 1 ↔
        df.value.sum ∈ df.value) ∧
      0 ≤ (PortfolioAnalyzer.calculate_hhi_metrics df).2.normalized_hhi ∧
      (PortfolioAnalyzer.calculate_hhi_metrics df).2.normalized_hhi ≤ 1 := by
  intro df hne hnn hpos
  have hvnn : ∀ x ∈ df.value, 0 ≤ x := by
    intro x hx
    rcases List.mem_map.mp hx with ⟨r, hr, rfl⟩
    exact hnn r hr
  have hT : df.value.sum ≠ 0 := ne_of_gt hpos
  have hlenv : (df.value).length = df.rows.length := List.length_map _ _
  have hvne : df.value ≠ [] := by
    intro h0
    apply hne
    have hl : df.rows.length = 0 := by rw [← hlenv, h0]; rfl
    exact List.length_eq_zero.mp hl
  have hWsum : (df.value.map (fun x => x / df.value.sum)).sum = 1 := by
    rw [sum_map_div]
    exact div_self hT
  have hWne : df.value.map (fun x => x / df.value.sum) ≠ [] := by
    intro h0
    exact hvne (List.map_eq_nil_iff.mp h0)
  have hWnn : ∀ w ∈ df.value.map (fun x => x / df.value.sum), 0 ≤ w := by
    intro w hw
    rcases List.mem_map.mp hw with ⟨x, hx, rfl⟩
    exact div_nonneg (hvnn x hx) hpos.le
  have hWle : ∀ w ∈ df.value.map (fun x => x / df.value.sum), w ≤ 1 := by
    intro w hw
    rcases List.mem_map.mp hw with ⟨x, hx, rfl⟩
    exact (div_le_one hpos).mpr (List.single_le_sum hvnn x hx)
  have hWlen : (df.value.map (fun x => x / df.value.sum)).length = df.rows.length := by
    rw [List.length_map]
    exact hlenv
  have hlow := sum_sq_ge_inv_length _ hWne hWsum
  rw [hWlen] at hlow
  have hhigh := sum_sq_le_one _ hWnn hWle hWsum
  have hHdef : (PortfolioAnalyzer.calculate_hhi_metrics df).2.hhi =
      ((df.value.map (fun x => x / df.value.sum)).map (fun w => w ^ 2)).sum := rfl
  have hNdef : (PortfolioAnalyzer.calculate_hhi_metrics df).2.normalized_hhi =
      (if 1 < df.rows.length then
        (((df.value.map (fun x => x / df.value.sum)).map (fun w => w ^ 2)).sum -
          1 / (df.rows.length : ℚ)) / (1 - 1 / (df.rows.length : ℚ))
      else 1) := rfl
  refine ⟨⟨_, rfl, hWsum⟩, ?_, ?_, ?_, ?_, ?_, ?_⟩
  · rw [hHdef]
    exact hlow.1
  · rw [hHdef]
    exact hhigh.1
  · rw [hHdef, hlow.2]
    constructor
    · intro h x hx
      exact h _ (List.mem_map_of_mem _ hx)
    · intro h w hw
      rcases List.mem_map.mp hw with ⟨x, hx, rfl⟩
      exact h x hx
  · rw [hHdef, hhigh.2]
    constructor
    · rintro ⟨w, hw, hw1⟩
      rcases List.mem_map.mp hw with ⟨x, hx, rfl⟩
      have hx1 : x = df.value.sum := by
        field_simp at hw1
        exact hw1
      exact hx1 ▸ hx
    · intro hmem
      exact ⟨df.value.sum / df.value.sum, List.mem_map_of_mem _ hmem, div_self hT⟩
  · rw [hNdef]
    rcases Nat.lt_or_ge 1 df.rows.length with hgt | hle2
    · rw [if_pos hgt]
      have hnQ : 1 < (df.rows.length : ℚ) := by exact_mod_cast hgt
      have hden : 0 < 1 - 1 / (df.rows.length : ℚ) := by
        have hlt : 1 / (df.rows.length : ℚ) < 1 := by
          rw [div_lt_one (by positivity)]
          exact hnQ
        linarith
      exact div_nonneg (by linarith [hlow.1]) hden.le
    · rw [if_neg (by omega)]
      norm_num
  · rw [hNdef]
    rcases Nat.lt_or_ge 1 df.rows.length with hgt | hle2
    · rw [if_pos hgt]
      have hnQ : 1 < (df.rows.length : ℚ) := by exact_mod_cast hgt
      have hden : 0 < 1 - 1 / (df.rows.length : ℚ) := by
        have hlt : 1 / (df.rows.length : ℚ) < 1 := by
          rw [div_lt_one (by positivity)]
          exact hnQ
        linarith
      rw [div_le_one hden]
      linarith [hhigh.1]
    · rw [if_neg (by omega)]

/-- C5 witness: `hhi_metrics_invariants` at the scenario holdings. -/
theorem hhi_metrics_invariants_witness :
    scenarioDF.rows ≠ [] ∧ (∀ r ∈ scenarioDF.rows, 0 ≤ r.2) ∧
    0 < scenarioDF.value.sum ∧
    ((∃ ws, (PortfolioAnalyzer.calculate_hhi_metrics scenarioDF).1.weights = some ws ∧
        ws.sum = 1) ∧
      1 / (scenarioDF.rows.length : ℚ) ≤
        (PortfolioAnalyzer.calculate_hhi_metrics scenarioDF).2.hhi ∧
      (PortfolioAnalyzer.calculate_hhi_metrics scenarioDF).2.hhi ≤ 1 ∧
      ((PortfolioAnalyzer.calculate_hhi_metrics scenarioDF).2.hhi =
          1 / (scenarioDF.rows.length : ℚ) ↔
        ∀ x ∈ scenarioDF.value, x / scenarioDF.value.sum =
          1 / (scenarioDF.rows.length : ℚ)) ∧
      ((PortfolioAnalyzer.calculate_hhi_metrics scenarioDF).2.hhi = 1 ↔
        scenarioDF.value.sum ∈ scenarioDF.value) ∧
      0 ≤ (PortfolioAnalyzer.calculate_hhi_metrics scenarioDF).2.normalized_hhi ∧
      (PortfolioAnalyzer.calculate_hhi_metrics scenarioDF).2.normalized_hhi ≤ 1) :=
  ⟨by decide, by decide, by norm_num [scenarioDF, DataFrame.value],
    hhi_metrics_invariants scenarioDF (by decide) (by decide)
      (by norm_num [scenarioDF, DataFrame.value])⟩

/-- A substring of `s` is a substring of `s ++ t`. -/
theorem occursIn_append_right (p s t : String) (h : occursIn p s) :
    occursIn p (s ++ t) := by
  rcases h with ⟨a, b, rfl⟩
  exact ⟨a, b ++ t, String.append_assoc _ _ _⟩

/-- A substring of `t` is a substring of `s ++ t`. -/
theorem occursIn_append_left (p s t : String) (h : occursIn p t) :
    occursIn p (s ++ t) := by
  rcases h with ⟨a, b, rfl⟩
  refine ⟨s ++ a, b, ?_⟩
  rw [← String.append_assoc, ← String.append_assoc]

/-- A string occurs at the end of anything it is appended to. -/
theorem occursIn_append_self (p a : String) : occursIn p (a ++ p) :=
  ⟨a, "", by rw [String.append_empty]⟩

/-- A string occurs in itself. -/
theorem occursIn_self (p : String) : occursIn p p :=
  ⟨"", "", by rw [String.append_empty]; exact (String.empty_append p).symm⟩

/-- Whatever occurs in the accumulator still occurs after folding more
line appends over it. -/
theorem occursIn_foldl_of_init {α : Type} (g : α → String) (l : List α) (p : String) :
    ∀ init : String, occursIn p init →
      occursIn p (l.foldl (fun acc r => acc ++ g r) init) := by
  induction l with
  | nil => intro init h; simpa using h
  | cons a tl ih =>
    intro init h
    simp only [List.foldl_cons]
    exact ih _ (occursIn_append_right _ _ _ h)

/-- Each appended line occurs in the result of folding line appends. -/
theorem occursIn_foldl_of_mem {α : Type} (g : α → String) (rs : List α) (row : α)
    (hrow : row ∈ rs) :
    ∀ init : String, occursIn (g row) (rs.foldl (fun acc r => acc ++ g r) init) := by
  induction rs with
  | nil => cases hrow
  | cons a tl ih =>
    intro init
    simp only [List.foldl_cons]
    rcases List.mem_cons.mp hrow with rfl | hmem
    · exact occursIn_foldl_of_init g tl _ _ (occursIn_append_self _ _)
    · exact ih hmem _

/-- C8: for a holdings frame carrying its weights column and any metrics,
the fallback commentary generator succeeds and the returned string
contains the formatted total value, the holding count, the HHI and
normalized HHI (4 decimals), the tier label, and one full line per
top-three-by-value holding (name, absolute value, weight percentage with
one decimal); the text ends with exactly one of the three fixed guidance
blocks, selected by `normalized_hhi < 0.2`, `< 0.5`, `>= 0.5`. -/
theorem fallback_commentary_contents :
    ∀ (investments : DataFrame) (metrics : PortfolioAnalyzerDspy.Metrics) (tier : String)
      (ws : List ℚ),
      investments.weights = some ws →
      ws.length = investments.rows.length →
      investments.rows ≠ [] →
      ∃ c,
        PortfolioAnalyzerDspy._generate_fallback_commentary investments metrics tier =
          some c ∧
        occursIn (formatCommaFixed metrics.total_value 2) c ∧
        occursIn (toString investments.rows.length) c ∧
        occursIn (formatFixed metrics.hhi 4) c ∧
        occursIn (formatFixed metrics.normalized_hhi 4) c ∧
        occursIn tier c ∧
        (∀ row ∈ PortfolioAnalyzerDspy.nlargest3ByValue (investments.rows.zip ws),
          occursIn (PortfolioAnalyzerDspy.holdingLine row) c) ∧
        (metrics.normalized_hhi < 0.2 →
          ∃ pre, c = pre ++ PortfolioAnalyzerDspy.wellDiversifiedBlock) ∧
        (0.2 ≤ metrics.normalized_hhi → metrics.normalized_hhi < 0.5 →
          ∃ pre, c = pre ++ PortfolioAnalyzerDspy.moderateConcentrationBlock) ∧
        (0.5 ≤ metrics.normalized_hhi →
          ∃ pre, c = pre ++ PortfolioAnalyzerDspy.highConcentrationBlock) ∧
        PortfolioAnalyzerDspy.wellDiversifiedBlock ≠
          PortfolioAnalyzerDspy.moderateConcentrationBlock ∧
        PortfolioAnalyzerDspy.wellDiversifiedBlock ≠
          PortfolioAnalyzerDspy.highConcentrationBlock ∧
        PortfolioAnalyzerDspy.moderateConcentrationBlock ≠
          PortfolioAnalyzerDspy.highConcentrationBlock := by
  intro investments metrics tier ws hw hlen hne
  obtain ⟨rows, wcol, wsq⟩ := investments
  dsimp only at hw hlen hne ⊢
  subst hw
  simp only [PortfolioAnalyzerDspy._generate_fallback_commentary]
  rw [if_pos hlen]
  refine ⟨_, rfl, ?_, ?_, ?_, ?_, ?_, ?_, ?_, ?_, ?_, by decide, by decide, by decide⟩
  · apply occursIn_append_right
    apply occursIn_append_right
    apply occursIn_foldl_of_init
    repeat
      first
        | exact occursIn_append_self _ _
        | apply occursIn_append_right
  · apply occursIn_append_right
    apply occursIn_append_right
    apply occursIn_foldl_of_init
    repeat
      first
        | exact occursIn_append_self _ _
        | apply occursIn_append_right
  · apply occursIn_append_right
    apply occursIn_append_right
    apply occursIn_foldl_of_init
    repeat
      first
        | exact occursIn_append_self _ _
        | apply occursIn_append_right
  · apply occursIn_append_right
    apply occursIn_append_right
    apply occursIn_foldl_of_init
    repeat
      first
        | exact occursIn_append_self _ _
        | apply occursIn_append_right
  · apply occursIn_append_right
    apply occursIn_append_right
    apply occursIn_foldl_of_init
    repeat
      first
        | exact occursIn_append_self _ _
        | apply occursIn_append_right
  · intro row hrow
    apply occursIn_append_right
    apply occursIn_append_right
    exact occursIn_foldl_of_mem _ _ _ hrow _
  · intro h
    exact ⟨_, by rw [if_pos h]⟩
  · intro h1 h2
    exact ⟨_, by rw [if_neg (not_lt.mpr h1), if_pos h2]⟩
  · intro h
    exact ⟨_, by
      rw [if_neg (not_lt.mpr ((by norm_num : (0.2 : ℚ) ≤ 0.5).trans h)),
        if_neg (not_lt.mpr h)]⟩

/-- C8 witness: `fallback_commentary_contents` at the scenario frame with
its weights column, the scenario metrics and the "Well Diversified"
tier. -/
theorem fallback_commentary_contents_witness :
    fallbackDF.weights = some [6/10, 3/10, 1/10] ∧
    ([(6 : ℚ)/10, 3/10, 1/10].length = fallbackDF.rows.length) ∧
    fallbackDF.rows ≠ [] ∧
    (∃ c,
      PortfolioAnalyzerDspy._generate_fallback_commentary fallbackDF fallbackMetrics
          "Well Diversified" = some c ∧
      occursIn (formatCommaFixed fallbackMetrics.total_value 2) c ∧
      occursIn (toString fallbackDF.rows.length) c ∧
      occursIn (formatFixed fallbackMetrics.hhi 4) c ∧
      occursIn (formatFixed fallbackMetrics.normalized_hhi 4) c ∧
      occursIn "Well Diversified" c ∧
      (∀ row ∈ PortfolioAnalyzerDspy.nlargest3ByValue
          (fallbackDF.rows.zip [6/10, 3/10, 1/10]),
        occursIn (PortfolioAnalyzerDspy.holdingLine row) c) ∧
      (fallbackMetrics.normalized_hhi < 0.2 →
        ∃ pre, c = pre ++ PortfolioAnalyzerDspy.wellDiversifiedBlock) ∧
      (0.2 ≤ fallbackMetrics.normalized_hhi → fallbackMetrics.normalized_hhi < 0.5 →
        ∃ pre, c = pre ++ PortfolioAnalyzerDspy.moderateConcentrationBlock) ∧
      (0.5 ≤ fallbackMetrics.normalized_hhi →
        ∃ pre, c = pre ++ PortfolioAnalyzerDspy.highConcentrationBlock) ∧
      PortfolioAnalyzerDspy.wellDiversifiedBlock ≠
        PortfolioAnalyzerDspy.moderateConcentrationBlock ∧
      PortfolioAnalyzerDspy.wellDiversifiedBlock ≠
        PortfolioAnalyzerDspy.highConcentrationBlock ∧
      PortfolioAnalyzerDspy.moderateConcentrationBlock ≠
        PortfolioAnalyzerDspy.highConcentrationBlock) :=
  ⟨rfl, by decide, by decide,
    fallback_commentary_contents fallbackDF fallbackMetrics "Well Diversified"
      [6/10, 3/10, 1/10] rfl (by decide) (by decide)⟩
